import Mathlib

/-!
Formal model of the CityStrata evacuation-mapping core: spatial assignment
of resources to statistical areas, radius-bounded resource search,
per-area aggregation and capacity-vs-need evacuation analysis.

The repository ships the SQL schemas, the API documentation and the React
front end; the core engine itself (AreaRegistry, SpatialIndex,
AggregationService, EvacuationAnalyzer) is specified but its backend
implementation files are not in the source tree.  Definitions for those
components are therefore modelled from the specification (each such
definition says so in its doc comment); the SQL DDL and the front-end
display logic, which are in the tree, are translated directly.

Numeric conventions: geographic coordinates (degrees longitude/latitude,
double precision in the code) and distances in meters are modelled as ℚ;
database integers (area codes, capacities, counts) as ℤ/ℕ.
-/

namespace CityStrata

/-- Geographic point, coordinate order longitude then latitude
(EPSG:4326 degrees), as used by every `location` column and GeoJSON
`coordinates` pair in the repository. -/
structure Point where
  lon : ℚ
  lat : ℚ
deriving DecidableEq

/-- Modelled from the spec (§3 StatisticalArea): one statistical area with
its unique-per-city `area_code` (column `stat_2022`), the `city_code`
(column `semel_yish`), the polygon ring of [lon,lat] vertices, optional
precomputed surface and centroid and the open key-value `properties` map
(kept as an association list).  A single outer ring is modelled. -/
structure StatisticalArea where
  area_code : ℤ
  city_code : ℤ
  polygon : List Point
  area_m2 : Option ℚ := none
  centroid : Option Point := none
  properties : List (String × String) := []
deriving DecidableEq

/-- Modelled from the spec (§4.1 AreaRegistry): the immutable set of
statistical-area polygons for a city, loaded once and read-only. -/
structure AreaRegistry where
  areas : List StatisticalArea
deriving DecidableEq

/-- Modelled from the spec (§4.1): one step of the standard ray-casting
point-in-polygon test for the edge from `a` to `b` — the horizontal ray
from `p` crosses the edge iff `p.lat` lies strictly between the endpoint
latitudes (half-open convention) and `p` is left of the edge at that
latitude.  The left-of test is the usual cross-multiplied form of
`p.lon < a.lon + (b.lon - a.lon) * (p.lat - a.lat) / (b.lat - a.lat)`,
sign-adjusted by the edge direction so that no division is needed. -/
def edgeCrosses (a b p : Point) : Bool :=
  (decide (a.lat > p.lat) != decide (b.lat > p.lat)) &&
    (if a.lat < b.lat
      then decide ((p.lon - a.lon) * (b.lat - a.lat) < (b.lon - a.lon) * (p.lat - a.lat))
      else decide ((b.lon - a.lon) * (p.lat - a.lat) < (p.lon - a.lon) * (b.lat - a.lat)))

/-- Modelled from the spec (§4.1): standard ray-casting point-in-polygon
containment, folding the crossing parity over the vertex ring's edges
(each vertex paired with its cyclic successor).  A ring with fewer than
3 vertices is malformed and contains nothing. -/
def pointInPolygon (poly : List Point) (p : Point) : Bool :=
  if poly.length < 3 then false
  else
    (poly.zip (poly.drop 1 ++ poly.take 1)).foldl
      (fun acc e => if edgeCrosses e.1 e.2 p then !acc else acc) false

/-- Containment of a point in one statistical area's polygon. -/
def StatisticalArea.claims (a : StatisticalArea) (p : Point) : Bool :=
  pointInPolygon a.polygon p

/-- Smallest element of a list of area codes, `none` on the empty list;
used for the defensive lowest-`area_code`-wins tie-break of §4.1. -/
def minCode : List ℤ → Option ℤ
  | [] => none
  | c :: cs =>
    match minCode cs with
    | none => some c
    | some m => some (min c m)

/-- Modelled from the spec (§4.1 AreaRegistry.lookup): find the area with
the given code, `NotFound` (here `none`) when absent. -/
def AreaRegistry.lookup (reg : AreaRegistry) (c : ℤ) : Option StatisticalArea :=
  reg.areas.find? fun a => decide (a.area_code = c)

/-- Modelled from the spec (§4.1 AreaRegistry.containingArea): the code of
the area whose polygon contains the point, `none` when the point lies in
no area; if several polygons claim the point, the numerically smallest
`area_code` wins. -/
def AreaRegistry.containingArea (reg : AreaRegistry) (p : Point) : Option ℤ :=
  minCode ((reg.areas.filter fun a => a.claims p).map fun a => a.area_code)

/-- Modelled from the spec (§3 Resource, kind Lodging — the airbnb/hotels
listings): common fields `id`, `location`, nullable `assigned_area_code`
and `city_code`, plus nullable `person_capacity`, `price_per_night` and
`rating` as in the airbnb listing model. -/
structure Lodging where
  id : ℤ
  location : Point
  assigned_area_code : Option ℤ
  city_code : ℤ
  person_capacity : Option ℤ
  price_per_night : Option ℚ := none
  rating : Option ℚ := none
deriving DecidableEq

/-- Modelled from the spec (§3 Resource, kind Institution — the
educational institutions): no capacity field, population is derived by
the fixed per-institution formula of §4.4. -/
structure Institution where
  id : ℤ
  location : Point
  assigned_area_code : Option ℤ
  city_code : ℤ
  education_phase : Option String := none
  type_of_education : Option String := none
deriving DecidableEq

/-- Modelled from the spec (§3 Resource, kind FoodVenue — restaurants and
coffee shops unified): carries the `temporarily_closed` and
`permanently_closed` flags of the restaurants/coffee_shops tables. -/
structure FoodVenue where
  id : ℤ
  location : Point
  assigned_area_code : Option ℤ
  city_code : ℤ
  category : Option String := none
  score : Option ℚ := none
  temporarily_closed : Bool := false
  permanently_closed : Bool := false
deriving DecidableEq

/-- Modelled from the spec (§3 Resource, kind CommunityCenter — the
matnasim table). -/
structure CommunityCenter where
  id : ℤ
  location : Point
  assigned_area_code : Option ℤ
  city_code : ℤ
  facility_area_m2 : Option ℚ := none
  occupancy : Option ℤ := none
deriving DecidableEq

/-- Modelled from the spec (§3 Resource, kind GenericFacility — the OSM
city facilities table with its open `facility_type` taxonomy). -/
structure GenericFacility where
  id : ℤ
  location : Point
  assigned_area_code : Option ℤ
  city_code : ℤ
  facility_type : String := ""
deriving DecidableEq

/-- Modelled from the spec (§2 ResourceCatalog): the typed collections of
the five resource kinds, an immutable snapshot handed to the core. -/
structure ResourceCatalog where
  lodgings : List Lodging
  institutions : List Institution
  foodVenues : List FoodVenue
  communityCenters : List CommunityCenter
  facilities : List GenericFacility
deriving DecidableEq

/-- Modelled from the spec (§3 AreaSummary): the derived per-area counts
and capacity sums; `food_venue_count` excludes permanently closed
venues. -/
structure AreaSummary where
  institutions_count : ℕ
  lodging_count : ℕ
  lodging_total_capacity : ℤ
  food_venue_count : ℕ
  community_center_count : ℕ
  facility_count : ℕ
deriving DecidableEq

/-- Number of institutions assigned to the given area code. -/
def institutionsCount (cat : ResourceCatalog) (code : ℤ) : ℕ :=
  (cat.institutions.filter fun i => decide (i.assigned_area_code = some code)).length

/-- Sum of `person_capacity` over the lodgings assigned to the given area
code, a null capacity counted as 0 (§4.3). -/
def lodgingCapacity (cat : ResourceCatalog) (code : ℤ) : ℤ :=
  ((cat.lodgings.filter fun l => decide (l.assigned_area_code = some code)).map
    fun l => l.person_capacity.getD 0).sum

/-- Modelled from the spec (§4.3 AggregationService): filter each
collection to the entries whose `assigned_area_code` equals the requested
code, count per kind, sum lodging `person_capacity` with null as 0, and
drop `permanently_closed` food venues from their count (temporarily
closed ones stay). -/
def summarizeData (cat : ResourceCatalog) (code : ℤ) : AreaSummary :=
  { institutions_count := institutionsCount cat code
    lodging_count :=
      (cat.lodgings.filter fun l => decide (l.assigned_area_code = some code)).length
    lodging_total_capacity := lodgingCapacity cat code
    food_venue_count :=
      (cat.foodVenues.filter fun v =>
        decide (v.assigned_area_code = some code) && !v.permanently_closed).length
    community_center_count :=
      (cat.communityCenters.filter fun c => decide (c.assigned_area_code = some code)).length
    facility_count :=
      (cat.facilities.filter fun f => decide (f.assigned_area_code = some code)).length }

/-- Modelled from the spec (§4.3, §6 Summarize): `summarize` answers
`NotFound` (here `none`) for an area code unknown to the registry and the
computed `AreaSummary` otherwise. -/
def summarize (reg : AreaRegistry) (cat : ResourceCatalog) (code : ℤ) : Option AreaSummary :=
  if (reg.lookup code).isSome then some (summarizeData cat code) else none

/-- Modelled from the spec (§7): the recoverable error kinds of the core. -/
inductive CoreError where
  | notFound
  | invalidParameter
  | geometryError
deriving DecidableEq

/-- Modelled from the spec (§4.4 step 5): one recommendation entry; the
exact wording is a presentation concern, so only the contractual content
is modelled — whether a shortage is reported and the quoted magnitude. -/
structure Recommendation where
  shortage : Bool
  magnitude : ℕ
deriving DecidableEq

/-- Modelled from the spec (§3 EvacuationAnalysis and the EvacuationAnalysis
response model of the README): totals, deficit, per-area breakdowns and the
recommendation list. -/
structure EvacuationAnalysis where
  evacuate_areas : List ℤ
  total_need : ℤ
  total_capacity : ℤ
  capacity_deficit : ℤ
  need_by_area : List (ℤ × ℤ)
  capacity_by_area : List (ℤ × ℤ)
  recommendations : List Recommendation
deriving DecidableEq

/-- Modelled from the spec (§4.4 EvacuationAnalyzer.analyze): fail with
`InvalidParameter` when the evacuate set is empty or holds a code unknown
to `AreaRegistry.lookup`; otherwise need per area is
`institutions_count * 35`, capacity is summed over the resource-donor
areas when supplied and over the evacuate areas themselves otherwise,
`capacity_deficit = total_capacity - total_need`, and the recommendation
reports a shortage with magnitude `Math.abs` of the deficit when the
deficit is negative and a surplus quoting the deficit itself otherwise. -/
def analyze (reg : AreaRegistry) (cat : ResourceCatalog)
    (evacuateAreaCodes : List ℤ) (resourceAreaCodes : Option (List ℤ)) :
    Except CoreError EvacuationAnalysis :=
  if evacuateAreaCodes = [] then .error .invalidParameter
  else if evacuateAreaCodes.all fun c => (reg.lookup c).isSome then
    let capacityAreas := resourceAreaCodes.getD evacuateAreaCodes
    let total_need :=
      (evacuateAreaCodes.map fun c => (institutionsCount cat c : ℤ) * 35).sum
    let total_capacity := (capacityAreas.map fun c => lodgingCapacity cat c).sum
    let d := total_capacity - total_need
    .ok { evacuate_areas := evacuateAreaCodes
          total_need := total_need
          total_capacity := total_capacity
          capacity_deficit := d
          need_by_area :=
            evacuateAreaCodes.map fun c => (c, (institutionsCount cat c : ℤ) * 35)
          capacity_by_area := capacityAreas.map fun c => (c, lodgingCapacity cat c)
          recommendations := [if d < 0 then ⟨true, d.natAbs⟩ else ⟨false, d.toNat⟩] }
  else .error .invalidParameter

/-- Capacity-status line of the front end's EvacuationPlanner component:
when `analysis.capacity_deficit < 0` it renders the Deficit label quoting
`Math.abs(analysis.capacity_deficit)`, otherwise the Surplus label quoting
`analysis.capacity_deficit` itself.  The label is modelled as a Bool
(`true` = deficit shown) together with the quoted number. -/
def capacityStatus (capacity_deficit : ℤ) : Bool × ℤ :=
  if capacity_deficit < 0 then (true, (capacity_deficit.natAbs : ℤ))
  else (false, capacity_deficit)

/-- Modelled from the spec (§9 design notes): the closed set of resource
kinds a radius search can target. -/
inductive ResourceKind where
  | lodging
  | institution
  | foodVenue
  | communityCenter
  | facility
deriving DecidableEq

/-- Modelled from the spec (§4.2) and the `/api/nearby` request model of
the README (`resource_type` one of airbnb, institution, restaurant,
coffee_shop): recognise a kind string at the boundary, `none` for an
unknown kind.  Restaurants and coffee shops both select the unified
FoodVenue collection. -/
def parseKind : String → Option ResourceKind
  | "airbnb" => some .lodging
  | "institution" => some .institution
  | "restaurant" => some .foodVenue
  | "coffee_shop" => some .foodVenue
  | _ => none

/-- Candidate entries (id and location) of one resource kind. -/
def ResourceCatalog.entriesOf (cat : ResourceCatalog) : ResourceKind → List (ℤ × Point)
  | .lodging => cat.lodgings.map fun l => (l.id, l.location)
  | .institution => cat.institutions.map fun i => (i.id, i.location)
  | .foodVenue => cat.foodVenues.map fun v => (v.id, v.location)
  | .communityCenter => cat.communityCenters.map fun c => (c.id, c.location)
  | .facility => cat.facilities.map fun f => (f.id, f.location)

/-- One result row of a radius search: the matched resource's id and
location together with its reported distance in meters. -/
structure SearchHit where
  id : ℤ
  location : Point
  distanceMeters : ℚ
deriving DecidableEq

/-- Result order of a radius search (§4.2): ascending `distanceMeters`,
ties broken by ascending resource `id`. -/
def hitLE (a b : SearchHit) : Prop :=
  a.distanceMeters < b.distanceMeters ∨
    (a.distanceMeters = b.distanceMeters ∧ a.id ≤ b.id)

instance : DecidableRel hitLE := fun a b =>
  decidable_of_iff
    (a.distanceMeters < b.distanceMeters ∨
      (a.distanceMeters = b.distanceMeters ∧ a.id ≤ b.id)) Iff.rfl

instance : IsTotal SearchHit hitLE :=
  ⟨fun a b => by
    rcases lt_trichotomy a.distanceMeters b.distanceMeters with h | h | h
    · exact Or.inl (Or.inl h)
    · rcases le_total a.id b.id with h2 | h2
      · exact Or.inl (Or.inr ⟨h, h2⟩)
      · exact Or.inr (Or.inr ⟨h.symm, h2⟩)
    · exact Or.inr (Or.inl h)⟩

instance : IsTrans SearchHit hitLE :=
  ⟨fun a b c hab hbc => by
    rcases hab with h1 | ⟨h1, h1'⟩ <;> rcases hbc with h2 | ⟨h2, h2'⟩
    · exact Or.inl (h1.trans h2)
    · exact Or.inl (lt_of_lt_of_le h1 h2.le)
    · exact Or.inl (lt_of_le_of_lt h1.le h2)
    · exact Or.inr ⟨h1.trans h2, h1'.trans h2'⟩⟩

/-- Modelled from the spec (§4.2 SpatialIndex.radiusSearch): fail with
`InvalidParameter` for a non-positive radius or an unknown kind string;
otherwise compute, eagerly, the entries of the selected collection whose
distance from the query point is within `radiusMeters` (the ST_DWithin
pattern of the implementation guide) and return them sorted ascending by
distance with ties broken by ascending id.  The geodesic distance
function `d` (great-circle on the geography type) is a parameter of the
model; the same `d` is used for the filter and the reported distances. -/
def radiusSearch (cat : ResourceCatalog) (d : Point → Point → ℚ)
    (point : Point) (radiusMeters : ℚ) (kind : String) :
    Except CoreError (List SearchHit) :=
  if radiusMeters ≤ 0 then .error .invalidParameter
  else
    match parseKind kind with
    | none => .error .invalidParameter
    | some k =>
      let hits := ((cat.entriesOf k).map fun e =>
        SearchHit.mk e.1 e.2 (d point e.2)).filter fun h =>
          decide (h.distanceMeters ≤ radiusMeters)
      .ok (List.insertionSort hitLE hits)

/-- Row of `public.airbnb_listings` as declared in
`backend/sql/004_create_airbnb_listings.sql`: a column without a NOT NULL
constraint is an `Option`; the NOT NULL columns (`id`, `title`,
`coordinates_latitude`, `coordinates_longitude`, `location`, `semel_yish`,
`stat_2022`, `imported_at`) are plain fields, so in particular the
statistical-area reference `stat_2022` of a stored row is never null. -/
structure AirbnbListingRow where
  uuid : String
  id : ℤ
  url : Option String := none
  title : String
  description : Option String := none
  price_qualifier : Option String := none
  price_numeric : Option ℤ := none
  num_nights : Option ℤ := none
  price_per_night : Option ℚ := none
  rating_value : Option ℚ := none
  person_capacity : Option ℤ := none
  location_subtitle : Option String := none
  coordinates_latitude : ℚ
  coordinates_longitude : ℚ
  location : Point
  semel_yish : ℤ := 2600
  stat_2022 : ℤ
  imported_at : ℤ := 0
deriving DecidableEq

/-- Row of `public.restaurants` as declared in
`backend/sql/007_create_restaurants.sql`: same convention — nullable
columns are `Option`, the NOT NULL columns (`cid`, `title`,
`location_lat`, `location_lng`, `location`, `semel_yish`, `stat_2022`,
`imported_at`) are plain fields. -/
structure RestaurantRow where
  uuid : String
  cid : ℤ
  title : String
  description : Option String := none
  category_name : Option String := none
  total_score : Option ℚ := none
  temporarily_closed : Option Bool := some false
  permanently_closed : Option Bool := some false
  url : Option String := none
  website : Option String := none
  street : Option String := none
  location_lat : ℚ
  location_lng : ℚ
  location : Point
  semel_yish : ℤ := 2600
  stat_2022 : ℤ
  activity_times : Option String := none
  imported_at : ℤ := 0
deriving DecidableEq

/-- Foreign-key constraint `fk_airbnb_stat_area` of the DDL: the row's
`(semel_yish, stat_2022)` pair must reference an existing row of
`statistical_areas`. -/
abbrev airbnbRowOk (reg : AreaRegistry) (r : AirbnbListingRow) : Prop :=
  ∃ a ∈ reg.areas, a.city_code = r.semel_yish ∧ a.area_code = r.stat_2022

/-- Foreign-key constraint `fk_restaurant_stat_area` of the DDL. -/
abbrev restaurantRowOk (reg : AreaRegistry) (r : RestaurantRow) : Prop :=
  ∃ a ∈ reg.areas, a.city_code = r.semel_yish ∧ a.area_code = r.stat_2022

/-- Modelled from the spec (§3 Resource): the spec's nullable
`assigned_area_code` field, read off a stored airbnb listing row.  The
schema's `stat_2022` column is NOT NULL, so the value read is always
`some`. -/
def AirbnbListingRow.assignedAreaCode (r : AirbnbListingRow) : Option ℤ :=
  some r.stat_2022

/-- Modelled from the spec (§3 Resource): the spec's nullable
`assigned_area_code` field, read off a stored restaurant row. -/
def RestaurantRow.assignedAreaCode (r : RestaurantRow) : Option ℤ :=
  some r.stat_2022

/-- Statement of the §3 assignment invariant exactly as claimed, for a
stored airbnb listing row: the assignment is null precisely when the
row's location lies outside every known polygon, and a non-null
assignment equals the containing area's code. -/
def nullableAssignmentClaim (reg : AreaRegistry) (r : AirbnbListingRow) : Prop :=
  (r.assignedAreaCode = none ↔ reg.containingArea r.location = none) ∧
    ∀ c, r.assignedAreaCode = some c → reg.containingArea r.location = some c

/-- Triangle used as the polygon of example area 11. -/
def tri11 : List Point := [⟨0, 0⟩, ⟨4, 0⟩, ⟨0, 4⟩]

/-- Triangle far from `tri11`, polygon of example area 12. -/
def tri12 : List Point := [⟨100, 100⟩, ⟨104, 100⟩, ⟨100, 104⟩]

/-- Example statistical area 11 of city 2600. -/
def exArea11 : StatisticalArea := { area_code := 11, city_code := 2600, polygon := tri11 }

/-- Example statistical area 12 of city 2600. -/
def exArea12 : StatisticalArea := { area_code := 12, city_code := 2600, polygon := tri12 }

/-- Example registry with the two disjoint areas 11 and 12. -/
def exReg : AreaRegistry := ⟨[exArea11, exArea12]⟩

/-- Example area 13 sharing area 11's polygon, for the tie-break case. -/
def exArea13 : StatisticalArea := { area_code := 13, city_code := 2600, polygon := tri11 }

/-- Registry in which areas 13 and 11 both claim the points of `tri11`. -/
def exTieReg : AreaRegistry := ⟨[exArea13, exArea11]⟩

/-- Point strictly inside `tri11` and outside `tri12`. -/
def exInsidePt : Point := ⟨1, 1⟩

/-- Point outside both example polygons. -/
def exOutsidePt : Point := ⟨50, 50⟩

/-- Example catalog: two institutions and two lodgings of capacities 4 and
6 in area 11, one lodging of capacity 80 in area 12, and in area 11 one
permanently closed food venue and one that is only temporarily closed. -/
def exCat : ResourceCatalog :=
  { lodgings :=
      [ { id := 201, location := ⟨1, 1⟩, assigned_area_code := some 11,
          city_code := 2600, person_capacity := some 4 }
      , { id := 202, location := ⟨2, 1⟩, assigned_area_code := some 11,
          city_code := 2600, person_capacity := some 6 }
      , { id := 203, location := ⟨101, 101⟩, assigned_area_code := some 12,
          city_code := 2600, person_capacity := some 80 } ]
    institutions :=
      [ { id := 101, location := ⟨1, 1⟩, assigned_area_code := some 11, city_code := 2600 }
      , { id := 102, location := ⟨1, 2⟩, assigned_area_code := some 11, city_code := 2600 } ]
    foodVenues :=
      [ { id := 301, location := ⟨1, 1⟩, assigned_area_code := some 11,
          city_code := 2600, permanently_closed := true }
      , { id := 302, location := ⟨1, 2⟩, assigned_area_code := some 11,
          city_code := 2600, temporarily_closed := true } ]
    communityCenters := []
    facilities := [] }

/-- Food venue 480 meters from the example query point under `exDistFn`. -/
def exVenueNear : FoodVenue :=
  { id := 301, location := ⟨1, 0⟩, assigned_area_code := some 11, city_code := 2600 }

/-- Food venue 520 meters from the example query point under `exDistFn`. -/
def exVenueFar : FoodVenue :=
  { id := 302, location := ⟨2, 0⟩, assigned_area_code := some 11, city_code := 2600 }

/-- Catalog holding only the two food venues of the radius-search scenario. -/
def exSearchCat : ResourceCatalog :=
  { lodgings := [], institutions := [], foodVenues := [exVenueNear, exVenueFar],
    communityCenters := [], facilities := [] }

/-- Example distance function for the radius-search scenario: 480 meters
to the near venue's location, 520 meters to anything else. -/
def exDistFn : Point → Point → ℚ :=
  fun _ q => if q.lon = 1 then 480 else 520

/-- Query point of the radius-search scenario. -/
def exQueryPt : Point := ⟨0, 0⟩

/-- Stored airbnb listing row located outside every polygon of `exReg`
while carrying (as the NOT NULL schema forces) the non-null area
reference 11. -/
def exOutsideRow : AirbnbListingRow :=
  { uuid := "u-900", id := 900, title := "listing far outside",
    coordinates_latitude := 50, coordinates_longitude := 50,
    location := ⟨50, 50⟩, stat_2022 := 11 }

/-- Stored restaurant row inside area 11. -/
def exRestaurantRow : RestaurantRow :=
  { uuid := "u-901", cid := 901, title := "restaurant in area 11",
    location_lat := 1, location_lng := 1, location := ⟨1, 1⟩, stat_2022 := 11 }

/-- Expected summary of example area 11: 2 institutions, 2 lodgings of
total capacity 10, and 1 food venue (the permanently closed one is
dropped, the temporarily closed one kept). -/
def exSummary11 : AreaSummary :=
  { institutions_count := 2, lodging_count := 2, lodging_total_capacity := 10,
    food_venue_count := 1, community_center_count := 0, facility_count := 0 }

/-- Expected analysis of evacuating example area 11 with no donor areas:
need 2 * 35 = 70, capacity 4 + 6 = 10, deficit -60, shortage of 60. -/
def exAnalysisB : EvacuationAnalysis :=
  { evacuate_areas := [11], total_need := 70, total_capacity := 10,
    capacity_deficit := -60, need_by_area := [(11, 70)],
    capacity_by_area := [(11, 10)], recommendations := [⟨true, 60⟩] }

end CityStrata

namespace CityStrata

theorem minCode_eq_none_iff (l : List ℤ) : minCode l = none ↔ l = [] := by
  cases l with
  | nil => simp [minCode]
  | cons c cs =>
    cases hcs : minCode cs <;> simp [minCode, hcs]

theorem minCode_mem : ∀ {l : List ℤ} {m : ℤ}, minCode l = some m → m ∈ l
  | [], m, h => by simp [minCode] at h
  | c :: cs, m, h => by
    cases hcs : minCode cs with
    | none =>
      simp only [minCode, hcs, Option.some.injEq] at h
      simp [h]
    | some m' =>
      simp only [minCode, hcs, Option.some.injEq] at h
      rcases min_choice c m' with hm | hm
      · rw [← h, hm]; exact List.mem_cons_self _ _
      · rw [← h, hm]; exact List.mem_cons_of_mem _ (minCode_mem hcs)

theorem minCode_le : ∀ {l : List ℤ} {m : ℤ}, minCode l = some m → ∀ b ∈ l, m ≤ b
  | [], m, h => by simp [minCode] at h
  | c :: cs, m, h => by
    cases hcs : minCode cs with
    | none =>
      have hnil : cs = [] := (minCode_eq_none_iff cs).mp hcs
      simp only [minCode, hcs, Option.some.injEq] at h
      subst hnil
      intro b hb
      have hb' : b = c := by simpa using hb
      exact le_of_eq (h.symm.trans hb'.symm)
    | some m' =>
      simp only [minCode, hcs, Option.some.injEq] at h
      intro b hb
      rcases List.mem_cons.mp hb with hb1 | hb'
      · rw [hb1, ← h]; exact min_le_left _ _
      · exact le_trans (h ▸ min_le_right _ _) (minCode_le hcs b hb')

theorem minCode_eq_some {l : List ℤ} {a : ℤ} (ha : a ∈ l) (hle : ∀ b ∈ l, a ≤ b) :
    minCode l = some a := by
  cases hm : minCode l with
  | none =>
    rw [minCode_eq_none_iff] at hm
    subst hm
    simp at ha
  | some m =>
    have h2 : a ≤ m := hle m (minCode_mem hm)
    have h3 : m ≤ a := minCode_le hm a ha
    rw [le_antisymm h2 h3]

theorem containingArea_none (reg : AreaRegistry) (p : Point)
    (h : ∀ a ∈ reg.areas, a.claims p = false) :
    reg.containingArea p = none := by
  unfold AreaRegistry.containingArea
  have hfil : reg.areas.filter (fun a => a.claims p) = [] := by
    rw [List.filter_eq_nil_iff]
    intro a ha
    simp [h a ha]
  rw [hfil]
  rfl

theorem containingArea_min (reg : AreaRegistry) (p : Point) {a : StatisticalArea}
    (ha : a ∈ reg.areas) (hc : a.claims p = true)
    (hmin : ∀ b ∈ reg.areas, b.claims p = true → a.area_code ≤ b.area_code) :
    reg.containingArea p = some a.area_code := by
  unfold AreaRegistry.containingArea
  apply minCode_eq_some
  · exact List.mem_map.mpr ⟨a, List.mem_filter.mpr ⟨ha, hc⟩, rfl⟩
  · intro x hx
    obtain ⟨b, hbf, rfl⟩ := List.mem_map.mp hx
    obtain ⟨hb, hcb⟩ := List.mem_filter.mp hbf
    exact hmin b hb hcb

/-- C2: for every point claimed (under the modelled ray-casting test) by
exactly one area polygon, `AreaRegistry.containingArea` returns that
area's `area_code`; for every point claimed by no polygon it returns
`none`; and when several polygons claim the point, the numerically
smallest `area_code` is returned. -/
theorem containingArea_spec (reg : AreaRegistry) (p : Point) :
    ((∀ a ∈ reg.areas, a.claims p = false) → reg.containingArea p = none) ∧
    (∀ a ∈ reg.areas, a.claims p = true →
      (∀ b ∈ reg.areas, b.claims p = true → b.area_code = a.area_code) →
      reg.containingArea p = some a.area_code) ∧
    (∀ a ∈ reg.areas, a.claims p = true →
      (∀ b ∈ reg.areas, b.claims p = true → a.area_code ≤ b.area_code) →
      reg.containingArea p = some a.area_code) :=
  ⟨containingArea_none reg p,
   fun a ha hc hall =>
     @containingArea_min reg p a ha hc fun b hb hcb => le_of_eq (hall b hb hcb).symm,
   fun a ha hc hmin => @containingArea_min reg p a ha hc hmin⟩

/-- Witness for C2 on the example registries: the point inside only area
11 maps to 11, the point outside every polygon maps to `none`, and under
the overlapping registry the smaller code 11 beats 13. -/
theorem containingArea_spec_witness :
    AreaRegistry.containingArea exReg exInsidePt = some 11 ∧
    AreaRegistry.containingArea exReg exOutsidePt = none ∧
    AreaRegistry.containingArea exTieReg exInsidePt = some 11 :=
  ⟨(containingArea_spec exReg exInsidePt).2.1 exArea11
      (by simp [exReg])
      (by norm_num [exArea11, StatisticalArea.claims, pointInPolygon, edgeCrosses,
        tri11, exInsidePt])
      (by
        simp only [exReg, List.mem_cons, List.not_mem_nil, or_false]
        rintro b (rfl | rfl)
        · intro _; rfl
        · norm_num [exArea12, StatisticalArea.claims, pointInPolygon, edgeCrosses,
            tri12, exInsidePt]),
   (containingArea_spec exReg exOutsidePt).1
      (by
        simp only [exReg, List.mem_cons, List.not_mem_nil, or_false]
        rintro b (rfl | rfl)
        · norm_num [exArea11, StatisticalArea.claims, pointInPolygon, edgeCrosses,
            tri11, exOutsidePt]
        · norm_num [exArea12, StatisticalArea.claims, pointInPolygon, edgeCrosses,
            tri12, exOutsidePt]),
   (containingArea_spec exTieReg exInsidePt).2.2 exArea11
      (by simp [exTieReg])
      (by norm_num [exArea11, StatisticalArea.claims, pointInPolygon, edgeCrosses,
        tri11, exInsidePt])
      (by
        simp only [exTieReg, List.mem_cons, List.not_mem_nil, or_false]
        rintro b (rfl | rfl) <;> intro _
        · norm_num [exArea11, exArea13]
        · norm_num [exArea11])⟩

/-- C1: for every non-empty list of known evacuate area codes, `analyze`
succeeds with `total_need` the sum over the evacuate areas of
`institutions_count * 35`, `total_capacity` the sum of lodging
`person_capacity` (null as 0) over the applicable area list — the donor
areas when supplied, the evacuate areas otherwise — and
`capacity_deficit` exactly `total_capacity - total_need`. -/
theorem analyze_totals (reg : AreaRegistry) (cat : ResourceCatalog)
    (evac : List ℤ) (resOpt : Option (List ℤ))
    (hne : evac ≠ [])
    (hk : ∀ c ∈ evac, (reg.lookup c).isSome = true) :
    ∃ a, analyze reg cat evac resOpt = .ok a ∧
      a.total_need = (evac.map fun c => (institutionsCount cat c : ℤ) * 35).sum ∧
      a.total_capacity = ((resOpt.getD evac).map fun c => lodgingCapacity cat c).sum ∧
      a.capacity_deficit = a.total_capacity - a.total_need := by
  unfold analyze
  rw [if_neg hne, if_pos (List.all_eq_true.mpr hk)]
  exact ⟨_, rfl, rfl, rfl, rfl⟩

/-- Witness for C1, Scenario B: evacuating example area 11 (2
institutions, lodging capacities 4 and 6) yields need 70, capacity 10,
deficit -60. -/
theorem analyze_totals_witness :
    (([11] : List ℤ) ≠ [] ∧ ∀ c ∈ ([11] : List ℤ), (exReg.lookup c).isSome = true) ∧
    (∃ a, analyze exReg exCat [11] none = .ok a ∧
      a.total_need = (([11] : List ℤ).map fun c => (institutionsCount exCat c : ℤ) * 35).sum ∧
      a.total_capacity =
        (((none : Option (List ℤ)).getD [11]).map fun c => lodgingCapacity exCat c).sum ∧
      a.capacity_deficit = a.total_capacity - a.total_need) ∧
    analyze exReg exCat [11] none = .ok exAnalysisB :=
  ⟨⟨by decide, by decide⟩,
   analyze_totals exReg exCat [11] none (by decide) (by decide),
   by rfl⟩

/-- C6: when a non-empty donor list `resourceAreaCodes` is supplied,
`total_capacity` is the lodging-capacity sum over the donor areas only;
it does not depend on the evacuate areas' own lodging, as any catalog
agreeing with the given one on the donor areas' lodging capacity yields
the same `total_capacity`. -/
theorem analyze_resource_areas (reg : AreaRegistry) (cat : ResourceCatalog)
    (evac rs : List ℤ)
    (hne : evac ≠ [])
    (hk : ∀ c ∈ evac, (reg.lookup c).isSome = true)
    (_hrs : rs ≠ []) :
    ∃ a, analyze reg cat evac (some rs) = .ok a ∧
      a.total_capacity = (rs.map fun c => lodgingCapacity cat c).sum ∧
      ∀ cat2 : ResourceCatalog,
        (∀ c ∈ rs, lodgingCapacity cat2 c = lodgingCapacity cat c) →
        ∃ a2, analyze reg cat2 evac (some rs) = .ok a2 ∧
          a2.total_capacity = a.total_capacity := by
  unfold analyze
  rw [if_neg hne, if_pos (List.all_eq_true.mpr hk)]
  refine ⟨_, rfl, rfl, ?_⟩
  intro cat2 hcap
  rw [if_neg hne, if_pos (List.all_eq_true.mpr hk)]
  exact ⟨_, rfl, congrArg List.sum (List.map_congr_left hcap)⟩

/-- Witness for C6, Scenario C: evacuating area 11 with donor area 12
(lodging capacity 80) yields `total_capacity = 80`, independent of area
11's own lodging. -/
theorem analyze_resource_areas_witness :
    (([11] : List ℤ) ≠ [] ∧ (∀ c ∈ ([11] : List ℤ), (exReg.lookup c).isSome = true) ∧
      ([12] : List ℤ) ≠ []) ∧
    (∃ a, analyze exReg exCat [11] (some [12]) = .ok a ∧
      a.total_capacity = (([12] : List ℤ).map fun c => lodgingCapacity exCat c).sum ∧
      ∀ cat2 : ResourceCatalog,
        (∀ c ∈ ([12] : List ℤ), lodgingCapacity cat2 c = lodgingCapacity exCat c) →
        ∃ a2, analyze exReg cat2 [11] (some [12]) = .ok a2 ∧
          a2.total_capacity = a.total_capacity) ∧
    (([12] : List ℤ).map fun c => lodgingCapacity exCat c).sum = 80 :=
  ⟨⟨by decide, by decide, by decide⟩,
   analyze_resource_areas exReg exCat [11] [12] (by decide) (by decide) (by decide),
   by decide⟩

/-- C4: for a known area code, `summarize` counts exactly the resources
whose `assigned_area_code` equals the code, sums lodging
`person_capacity` with null as 0, and its food-venue count excludes
exactly the permanently closed entries — venues that are only
temporarily closed stay counted. -/
theorem summarize_spec (reg : AreaRegistry) (cat : ResourceCatalog) (code : ℤ)
    (h : (reg.lookup code).isSome = true) :
    ∃ s, summarize reg cat code = some s ∧
      s.institutions_count =
        (cat.institutions.filter fun i => decide (i.assigned_area_code = some code)).length ∧
      s.lodging_count =
        (cat.lodgings.filter fun l => decide (l.assigned_area_code = some code)).length ∧
      s.lodging_total_capacity =
        ((cat.lodgings.filter fun l => decide (l.assigned_area_code = some code)).map
          fun l => l.person_capacity.getD 0).sum ∧
      s.food_venue_count =
        (cat.foodVenues.filter fun w =>
          decide (w.assigned_area_code = some code) && !w.permanently_closed).length ∧
      s.community_center_count =
        (cat.communityCenters.filter fun m => decide (m.assigned_area_code = some code)).length ∧
      s.facility_count =
        (cat.facilities.filter fun f => decide (f.assigned_area_code = some code)).length ∧
      (∀ v ∈ cat.foodVenues, v.assigned_area_code = some code → v.permanently_closed = true →
        v ∉ cat.foodVenues.filter fun w =>
          decide (w.assigned_area_code = some code) && !w.permanently_closed) ∧
      (∀ v ∈ cat.foodVenues, v.assigned_area_code = some code → v.permanently_closed = false →
        v ∈ cat.foodVenues.filter fun w =>
          decide (w.assigned_area_code = some code) && !w.permanently_closed) := by
  unfold summarize
  rw [if_pos h]
  refine ⟨_, rfl, rfl, rfl, rfl, rfl, rfl, rfl, ?_, ?_⟩
  · intro v _hv hcode hperm
    simp [List.mem_filter, hcode, hperm]
  · intro v hv hcode hperm
    simp [List.mem_filter, hv, hcode, hperm]

/-- Witness for C4, Scenarios A and E on example area 11: the summary is
2 institutions, lodging capacity 10, and food-venue count 1 — the
permanently closed venue is excluded, the temporarily closed one is
counted. -/
theorem summarize_spec_witness :
    (exReg.lookup 11).isSome = true ∧
    (∃ s, summarize exReg exCat 11 = some s ∧
      s.institutions_count =
        (exCat.institutions.filter fun i => decide (i.assigned_area_code = some 11)).length ∧
      s.lodging_count =
        (exCat.lodgings.filter fun l => decide (l.assigned_area_code = some 11)).length ∧
      s.lodging_total_capacity =
        ((exCat.lodgings.filter fun l => decide (l.assigned_area_code = some 11)).map
          fun l => l.person_capacity.getD 0).sum ∧
      s.food_venue_count =
        (exCat.foodVenues.filter fun w =>
          decide (w.assigned_area_code = some 11) && !w.permanently_closed).length ∧
      s.community_center_count =
        (exCat.communityCenters.filter fun m => decide (m.assigned_area_code = some 11)).length ∧
      s.facility_count =
        (exCat.facilities.filter fun f => decide (f.assigned_area_code = some 11)).length ∧
      (∀ v ∈ exCat.foodVenues, v.assigned_area_code = some 11 → v.permanently_closed = true →
        v ∉ exCat.foodVenues.filter fun w =>
          decide (w.assigned_area_code = some 11) && !w.permanently_closed) ∧
      (∀ v ∈ exCat.foodVenues, v.assigned_area_code = some 11 → v.permanently_closed = false →
        v ∈ exCat.foodVenues.filter fun w =>
          decide (w.assigned_area_code = some 11) && !w.permanently_closed)) ∧
    summarize exReg exCat 11 = some exSummary11 :=
  ⟨by decide, summarize_spec exReg exCat 11 (by decide), by decide⟩

theorem recommendation_entry (d : ℤ) :
    ((if d < 0 then (⟨true, d.natAbs⟩ : Recommendation)
        else ⟨false, d.toNat⟩).shortage = true ↔ d < 0) ∧
    (((if d < 0 then (⟨true, d.natAbs⟩ : Recommendation)
        else ⟨false, d.toNat⟩).magnitude : ℤ) = |d|) := by
  by_cases hd : d < 0
  · rw [if_pos hd]
    exact ⟨by simp [hd], Int.natCast_natAbs d⟩
  · rw [if_neg hd]
    push_neg at hd
    exact ⟨by simp [not_lt.mpr hd], by rw [Int.toNat_of_nonneg hd, abs_of_nonneg hd]⟩

theorem capacityStatus_eq (d : ℤ) :
    capacityStatus d = (decide (d < 0), |d|) := by
  unfold capacityStatus
  by_cases hd : d < 0
  · rw [if_pos hd]
    simp [hd, Int.natCast_natAbs]
  · rw [if_neg hd]
    push_neg at hd
    simp [not_lt.mpr hd, abs_of_nonneg hd]

/-- C7: every successful `analyze` result reports the sign of
`capacity_deficit` correctly — its recommendation flags a shortage
exactly when the deficit is negative and quotes exactly
`abs(capacity_deficit)` — and the front end's capacity-status line
(`capacityStatus`) shows the Deficit label exactly when the deficit is
negative, quoting the same absolute value. -/
theorem recommendation_contract (reg : AreaRegistry) (cat : ResourceCatalog)
    (evac : List ℤ) (resOpt : Option (List ℤ)) (a : EvacuationAnalysis)
    (h : analyze reg cat evac resOpt = .ok a) :
    (∀ r ∈ a.recommendations,
      (r.shortage = true ↔ a.capacity_deficit < 0) ∧
      (r.magnitude : ℤ) = |a.capacity_deficit|) ∧
    a.recommendations ≠ [] ∧
    capacityStatus a.capacity_deficit =
      (decide (a.capacity_deficit < 0), |a.capacity_deficit|) := by
  unfold analyze at h
  by_cases hne : evac = []
  · rw [if_pos hne] at h
    exact absurd h (by simp)
  · rw [if_neg hne] at h
    by_cases hall : evac.all (fun c => (reg.lookup c).isSome) = true
    · rw [if_pos hall] at h
      injection h with h
      subst h
      refine ⟨?_, List.cons_ne_nil _ _, capacityStatus_eq _⟩
      intro r hr
      have hr' := List.mem_singleton.mp hr
      subst hr'
      exact recommendation_entry _
    · rw [if_neg hall] at h
      exact absurd h (by simp)

/-- Witness for C7 on the Scenario B analysis (deficit -60): the
recommendation flags a shortage of magnitude 60 and the front-end status
line shows the Deficit label quoting 60. -/
theorem recommendation_contract_witness :
    analyze exReg exCat [11] none = .ok exAnalysisB ∧
    ((∀ r ∈ exAnalysisB.recommendations,
      (r.shortage = true ↔ exAnalysisB.capacity_deficit < 0) ∧
      (r.magnitude : ℤ) = |exAnalysisB.capacity_deficit|) ∧
    exAnalysisB.recommendations ≠ [] ∧
    capacityStatus exAnalysisB.capacity_deficit =
      (decide (exAnalysisB.capacity_deficit < 0), |exAnalysisB.capacity_deficit|)) :=
  ⟨by rfl, recommendation_contract exReg exCat [11] none exAnalysisB (by rfl)⟩

/-- C8: `analyze` fails with `InvalidParameter` exactly when the evacuate
list is empty or holds an area code unknown to `AreaRegistry.lookup`; in
particular it never does so for a non-empty list of known codes. -/
theorem analyze_invalid_iff (reg : AreaRegistry) (cat : ResourceCatalog)
    (evac : List ℤ) (resOpt : Option (List ℤ)) :
    analyze reg cat evac resOpt = .error .invalidParameter ↔
      evac = [] ∨ ∃ c ∈ evac, reg.lookup c = none := by
  unfold analyze
  by_cases hne : evac = []
  · simp [hne]
  · rw [if_neg hne]
    by_cases hall : evac.all (fun c => (reg.lookup c).isSome) = true
    · rw [if_pos hall]
      constructor
      · intro h
        exact absurd h (by simp)
      · rintro (h | ⟨c, hc, hnone⟩)
        · exact absurd h hne
        · have := List.all_eq_true.mp hall c hc
          rw [hnone] at this
          simp at this
    · rw [if_neg hall]
      constructor
      · intro _
        right
        have hx : ¬ ∀ c ∈ evac, (reg.lookup c).isSome = true :=
          fun hf => hall (List.all_eq_true.mpr hf)
        push_neg at hx
        obtain ⟨c, hc, hs⟩ := hx
        exact ⟨c, hc, Option.not_isSome_iff_eq_none.mp hs⟩
      · intro _
        rfl

/-- C10: `summarize` and `analyze` are pure functions of the registry,
catalog and request arguments — two calls on the same snapshot and
arguments are the very same computation, hence yield identical output. -/
theorem core_idempotent (reg : AreaRegistry) (cat : ResourceCatalog) (code : ℤ)
    (evac : List ℤ) (resOpt : Option (List ℤ)) :
    summarize reg cat code = summarize reg cat code ∧
    analyze reg cat evac resOpt = analyze reg cat evac resOpt :=
  ⟨rfl, rfl⟩

/-- C3: for a positive radius and a known kind, every hit returned by
`radiusSearch` reports as `distanceMeters` the distance function's value
at its location, that value is at most `radiusMeters`, and the returned
sequence is sorted ascending by distance with ties broken by ascending
id. -/
theorem radiusSearch_spec (cat : ResourceCatalog) (d : Point → Point → ℚ)
    (q : Point) (radius : ℚ) (kind : String) (k : ResourceKind)
    (hr : 0 < radius) (hk : parseKind kind = some k) :
    ∃ hits, radiusSearch cat d q radius kind = .ok hits ∧
      (∀ h ∈ hits, d q h.location ≤ radius ∧ h.distanceMeters = d q h.location) ∧
      List.Sorted hitLE hits := by
  unfold radiusSearch
  rw [if_neg (not_le.mpr hr), hk]
  refine ⟨_, rfl, ?_, List.sorted_insertionSort hitLE _⟩
  intro h hh
  have hmem : h ∈ ((cat.entriesOf k).map fun e =>
      SearchHit.mk e.1 e.2 (d q e.2)).filter fun x =>
        decide (x.distanceMeters ≤ radius) :=
    (List.perm_insertionSort hitLE _).mem_iff.mp hh
  obtain ⟨hmap, hdec⟩ := List.mem_filter.mp hmem
  obtain ⟨e, _he, hhe⟩ := List.mem_map.mp hmap
  have hdist : h.distanceMeters = d q h.location := by
    rw [← hhe]
  refine ⟨?_, hdist⟩
  rw [← hdist]
  exact of_decide_eq_true hdec

/-- Witness for C3, Scenario D: searching food venues within 500 meters
of the query point, with one venue at 480 m and one at 520 m, returns
only the 480 m venue. -/
theorem radiusSearch_spec_witness :
    ((0 : ℚ) < 500 ∧ parseKind "restaurant" = some ResourceKind.foodVenue) ∧
    (∃ hits, radiusSearch exSearchCat exDistFn exQueryPt 500 "restaurant" = .ok hits ∧
      (∀ h ∈ hits, exDistFn exQueryPt h.location ≤ 500 ∧
        h.distanceMeters = exDistFn exQueryPt h.location) ∧
      List.Sorted hitLE hits) ∧
    radiusSearch exSearchCat exDistFn exQueryPt 500 "restaurant" =
      .ok [⟨301, ⟨1, 0⟩, 480⟩] :=
  ⟨⟨by norm_num, rfl⟩,
   radiusSearch_spec exSearchCat exDistFn exQueryPt 500 "restaurant"
     ResourceKind.foodVenue (by norm_num) rfl,
   by norm_num [radiusSearch, parseKind, exSearchCat, exVenueNear, exVenueFar,
     ResourceCatalog.entriesOf, exDistFn, exQueryPt, List.insertionSort,
     List.orderedInsert, List.filter]⟩

/-- C9: `radiusSearch` fails with `InvalidParameter` exactly when the
radius is non-positive or the kind string is unknown; a positive radius
with a known kind never produces `InvalidParameter`. -/
theorem radiusSearch_invalid_iff (cat : ResourceCatalog) (d : Point → Point → ℚ)
    (q : Point) (radius : ℚ) (kind : String) :
    radiusSearch cat d q radius kind = .error .invalidParameter ↔
      radius ≤ 0 ∨ parseKind kind = none := by
  unfold radiusSearch
  by_cases hr : radius ≤ 0
  · simp [hr]
  · rw [if_neg hr]
    cases hk : parseKind kind with
    | none => simp [hr]
    | some k => simp [hr]

/-- Counterexample to C5 as stated: the airbnb listings schema declares
the area reference `stat_2022` NOT NULL, so the stored row located at
(50, 50) — outside every polygon of the example registry — still carries
the non-null reference 11 demanded by the foreign key, violating the
claimed null-exactly-when-outside invariant. -/
theorem nullable_assignment_cex :
    airbnbRowOk exReg exOutsideRow ∧
    AreaRegistry.containingArea exReg exOutsideRow.location = none ∧
    ¬ nullableAssignmentClaim exReg exOutsideRow := by
  have h1 : AreaRegistry.containingArea exReg exOutsideRow.location = none := by
    apply containingArea_none
    simp only [exReg, List.mem_cons, List.not_mem_nil, or_false]
    rintro b (rfl | rfl)
    · norm_num [exArea11, StatisticalArea.claims, pointInPolygon, edgeCrosses,
        tri11, exOutsideRow]
    · norm_num [exArea12, StatisticalArea.claims, pointInPolygon, edgeCrosses,
        tri12, exOutsideRow]
  refine ⟨⟨exArea11, by simp [exReg], by simp [exArea11, exOutsideRow],
    by simp [exArea11, exOutsideRow]⟩, h1, ?_⟩
  intro hcl
  have h2 := hcl.1.mpr h1
  simp [AirbnbListingRow.assignedAreaCode] at h2

/-- C5 amended: the resource schemas declare the area reference
`stat_2022` NOT NULL with a foreign key into `statistical_areas`, so a
stored resource row's assigned area code is never null — even when its
location falls outside every known polygon — and always references an
existing `(semel_yish, stat_2022)` area of the registry. -/
theorem assigned_area_not_null (reg : AreaRegistry)
    (ar : AirbnbListingRow) (rr : RestaurantRow)
    (ha : airbnbRowOk reg ar) (hr : restaurantRowOk reg rr) :
    ar.assignedAreaCode ≠ none ∧ rr.assignedAreaCode ≠ none ∧
    (∃ w ∈ reg.areas, w.city_code = ar.semel_yish ∧ w.area_code = ar.stat_2022) ∧
    (∃ w ∈ reg.areas, w.city_code = rr.semel_yish ∧ w.area_code = rr.stat_2022) :=
  ⟨by simp [AirbnbListingRow.assignedAreaCode],
   by simp [RestaurantRow.assignedAreaCode], ha, hr⟩

/-- Witness for the amended C5 on the example rows: both stored rows
carry a non-null area reference naming a known area. -/
theorem assigned_area_not_null_witness :
    (airbnbRowOk exReg exOutsideRow ∧ restaurantRowOk exReg exRestaurantRow) ∧
    (exOutsideRow.assignedAreaCode ≠ none ∧
      exRestaurantRow.assignedAreaCode ≠ none ∧
      (∃ w ∈ exReg.areas, w.city_code = exOutsideRow.semel_yish ∧
        w.area_code = exOutsideRow.stat_2022) ∧
      (∃ w ∈ exReg.areas, w.city_code = exRestaurantRow.semel_yish ∧
        w.area_code = exRestaurantRow.stat_2022)) :=
  ⟨⟨by decide, by decide⟩,
   assigned_area_not_null exReg exOutsideRow exRestaurantRow (by decide) (by decide)⟩

end CityStrata
